import Mathlib

/-!
Verification of the chat widget in `src/static/js/chat.js`.

The script is a browser-side chat widget.  Its behaviour relevant to the
specification is:

* `addMessage(text, type)` appends a plain log entry (used for user
  messages and for the fixed chat-failure message);
* `addBotMessage(text)` appends a bot entry: it matches the regular
  expression `/(\/static\/graphs\/[^\s]+\.png)/` against `text`, and when a
  match is found it removes the matched span from the displayed text, trims
  it, and renders the matched path as an inline image; it also attaches a
  translate button whose `onclick` handler drives the per-message
  translation toggle (closure variable `currentLang`, initially `"en"`);
* the translate `onclick` handler disables the button, sets its label to
  `"Translating…"`, posts `{ text, target_lang }` to `/translate`, and on
  success replaces the displayed text with the response's `translation`
  with every `/\/static\/graphs\/[^\s]+\.png/gi` match removed and the
  result trimmed, flips `currentLang`, and sets the label from the new
  `currentLang`; on any failure it alerts `"Translation failed!"`; in both
  cases the `finally` block re-enables the button;
* the form submit handler trims the input, returns when it is empty,
  appends the user entry, shows the typing indicator, posts `{ message }`
  to `/chat`, and on success removes the indicator and renders the bot
  reply; on any failure it appends the fixed bot entry
  `"Unable to reach the server."` (without removing the indicator).

Strings are modelled as `List Char` (a JavaScript string is a sequence of
code points for the operations used here).  The regular-expression
matching is modelled exactly: leftmost match, greedy `[^\s]+` with
backtracking into the literal `.png` suffix, and an optional
case-insensitive comparison for the `i` flag used by the translate
handler's global regex.
-/

namespace ChatWidget

/-- The character class `\s` of JavaScript regular expressions (and the
whitespace set of `String.prototype.trim`): tab through carriage return,
space, NBSP, and the Unicode space separators and BOM. -/
def isWs (c : Char) : Bool :=
  [9, 10, 11, 12, 13, 32, 0xA0, 0x1680, 0x2028, 0x2029, 0x202F, 0x205F,
    0x3000, 0xFEFF].contains c.toNat
  || (Nat.ble 0x2000 c.toNat && Nat.ble c.toNat 0x200A)

/-- The literal head of the graph-path pattern, `\/static\/graphs\/`. -/
def pathHead : List Char := "/static/graphs/".data

/-- The literal tail of the graph-path pattern, `\.png`. -/
def pathTail : List Char := ".png".data

/-- Case-sensitive character comparison (regex without the `i` flag). -/
def csEq (a b : Char) : Bool := a == b

/-- ASCII lower-casing; for the ASCII literals of the pattern this agrees
with the canonicalisation JavaScript applies under the `i` flag. -/
def lowerChar (c : Char) : Char :=
  if Nat.ble 65 c.toNat && Nat.ble c.toNat 90 then Char.ofNat (c.toNat + 32)
  else c

/-- Case-insensitive character comparison (regex with the `i` flag). -/
def ciEq (a b : Char) : Bool := lowerChar a == lowerChar b

/-- `headMatches eq p l` holds when `l` starts with the literal `p`,
characters compared by `eq`. -/
def headMatches (eq : Char → Char → Bool) : List Char → List Char → Bool
  | [], _ => true
  | _ :: _, [] => false
  | p :: ps, c :: cs => eq p c && headMatches eq ps cs

/-- Greedy search for the `[^\s]+` part: the largest `k` with `1 ≤ k ≤ n`
such that the first `k` characters of `l` are non-whitespace and the
literal `.png` follows, mirroring the backtracking of `[^\s]+\.png`. -/
def greedyMidFrom (eq : Char → Char → Bool) (l : List Char) : Nat → Option Nat
  | 0 => none
  | Nat.succ m =>
    if (l.take (m + 1)).all (fun c => !isWs c)
        && headMatches eq pathTail (l.drop (m + 1)) then
      some (m + 1)
    else greedyMidFrom eq l m

/-- Greedy `[^\s]+` length starting from the full length of `l`. -/
def greedyMid (eq : Char → Char → Bool) (l : List Char) : Option Nat :=
  greedyMidFrom eq l l.length

/-- Length of the match of `\/static\/graphs\/[^\s]+\.png` anchored at the
head of `l`, when there is one. -/
def matchLen (eq : Char → Char → Bool) (l : List Char) : Option Nat :=
  if headMatches eq pathHead l then
    Option.map (fun k => pathHead.length + k + pathTail.length)
      (greedyMid eq (l.drop pathHead.length))
  else none

/-- Leftmost match of the graph-path pattern: returns the text before the
match, the matched span, and the text after it.  This is the semantics of
`text.match(/(\/static\/graphs\/[^\s]+\.png)/)` (first match wins, greedy
quantifier). -/
def firstMatch (eq : Char → Char → Bool) : List Char → Option (List Char × List Char × List Char)
  | [] => none
  | c :: cs =>
    match matchLen eq (c :: cs) with
    | some n => some ([], (c :: cs).take n, (c :: cs).drop n)
    | none =>
      match firstMatch eq cs with
      | some (b, m, r) => some (c :: b, m, r)
      | none => none

/-- `String.prototype.trim`: drop leading and trailing whitespace. -/
def trimChars (l : List Char) : List Char :=
  ((l.dropWhile isWs).reverse.dropWhile isWs).reverse

/-- Fuelled global replacement of the case-insensitive graph-path regex
by the empty string: remove the leftmost match and continue after it, as
`String.prototype.replace` does with a `g`-flagged regex.  Every match
consumes at least 20 characters, so fuel equal to the initial length never
runs out before the list does. -/
def stripAllFuel : Nat → List Char → List Char
  | 0, l => l
  | Nat.succ n, l =>
    match firstMatch ciEq l with
    | some (b, _, r) => b ++ stripAllFuel n r
    | none => l

/-- `t.replace(/\/static\/graphs\/[^\s]+\.png/gi, "")`: remove every match
of the global case-insensitive graph-path regex. -/
def stripAllGraphs (l : List Char) : List Char :=
  stripAllFuel l.length l

/-- The state of one rendered bot message: the text of its `textSpan`, the
`src` of its inline image (when one was rendered), and the closure state
of its translate button (`currentLang`, label, disabled flag). -/
structure BotMessage where
  displayed : List Char
  imgSrc : Option (List Char)
  currentLang : List Char
  btnLabel : List Char
  btnDisabled : Bool
deriving DecidableEq

/-- `addBotMessage(text)`: match the graph-path regex against `text`; on a
match, the displayed text is `text` with the matched span removed and
trimmed and the image source is the matched span (the `replace` with the
matched string removes exactly the matched occurrence: the pattern matches
at the position of any occurrence of the matched string, so an earlier
occurrence would contradict leftmost matching).  The translate button
starts with `currentLang = "en"`, label `"Translate"`, enabled. -/
def addBotMessage (text : List Char) : BotMessage :=
  match firstMatch csEq text with
  | some (b, m, r) =>
    { displayed := trimChars (b ++ r), imgSrc := some m,
      currentLang := "en".data, btnLabel := "Translate".data,
      btnDisabled := false }
  | none =>
    { displayed := text, imgSrc := none,
      currentLang := "en".data, btnLabel := "Translate".data,
      btnDisabled := false }

/-- The JSON body posted to `/translate`. -/
structure TranslateRequest where
  text : List Char
  target_lang : List Char
deriving DecidableEq

/-- Outcome of the `/translate` fetch as the handler observes it: a
successful response carrying a `translation` string, or anything that
throws (non-OK response or network error — the handler treats both
identically through its `catch`). -/
inductive TranslateResponse where
  | ok (translation : List Char)
  | err
deriving DecidableEq

/-- Result of one run of the translate button's `onclick` handler: the
request it issued, the message state when the handler returns, and the
alerts it raised. -/
structure ClickResult where
  request : TranslateRequest
  state : BotMessage
  alerts : List (List Char)
deriving DecidableEq

/-- The request body built by the handler:
`{ text: textSpan.textContent, target_lang: currentLang === "en" ? "Arabic" : "English" }`. -/
def clickRequest (s : BotMessage) : TranslateRequest :=
  { text := s.displayed,
    target_lang := if s.currentLang = "en".data then "Arabic".data
                   else "English".data }

/-- The synchronous start of the handler: `btn.disabled = true;
btn.textContent = "Translating…";` — run before the fetch is issued. -/
def clickPending (s : BotMessage) : BotMessage :=
  { s with btnDisabled := true, btnLabel := "Translating…".data }

/-- Resolution of the handler once the fetch settles.  On success the
displayed text becomes the translation with every graph path stripped and
the result trimmed, `currentLang` flips, and the label is derived from the
new `currentLang`; on failure the handler alerts `"Translation failed!"`
and changes nothing else.  The `finally` block re-enables the button in
both cases. -/
def clickResolve (s : BotMessage) : TranslateResponse → BotMessage × List (List Char)
  | TranslateResponse.ok t =>
    ({ s with
        displayed := trimChars (stripAllGraphs t),
        currentLang := if s.currentLang = "en".data then "ar".data
                       else "en".data,
        btnLabel := if (if s.currentLang = "en".data then "ar".data
                        else "en".data) = "en".data then "Translate".data
                    else "Original".data,
        btnDisabled := false }, [])
  | TranslateResponse.err =>
    ({ s with btnDisabled := false }, ["Translation failed!".data])

/-- One full run of the translate button's `onclick` handler against a
given fetch outcome. -/
def click (s : BotMessage) (resp : TranslateResponse) : ClickResult :=
  { request := clickRequest (clickPending s),
    state := (clickResolve (clickPending s) resp).1,
    alerts := (clickResolve (clickPending s) resp).2 }

/-- One entry of the conversation log (`#messages` children): a user
entry, a plain bot entry made by `addMessage(text, "bot")`, the typing
indicator made by `addBotTyping()`, or a full bot message made by
`addBotMessage`. -/
inductive Entry where
  | user (text : List Char)
  | botPlain (text : List Char)
  | typing
  | bot (msg : BotMessage)
deriving DecidableEq

/-- The JSON body posted to `/chat`. -/
structure ChatRequest where
  message : List Char
deriving DecidableEq

/-- Outcome of the `/chat` fetch: a successful response carrying a `reply`
string, or anything that throws (non-OK response or network error). -/
inductive ChatResponse where
  | ok (reply : List Char)
  | err
deriving DecidableEq

/-- Result of one run of the form submit handler: the final log, the chat
requests issued, and how many times the typing indicator was shown
(`addBotTyping()`) and removed (`typingElem.remove()`). -/
structure SubmitResult where
  log : List Entry
  requests : List ChatRequest
  typingShown : Nat
  typingRemoved : Nat
deriving DecidableEq

/-- The form submit handler.  The input is trimmed; when empty the handler
returns at once.  Otherwise it appends the user entry, shows the typing
indicator, and posts `{ message }`.  On success `typingElem.remove()` runs
and the bot reply is rendered, so the final log holds the user entry
followed by the bot entry.  On failure the `catch` block only appends the
fixed `"Unable to reach the server."` bot entry — `typingElem.remove()` is
never executed on this path, so the typing entry stays in the log. -/
def submitHandler (inputVal : List Char) (log : List Entry)
    (resp : ChatResponse) : SubmitResult :=
  if trimChars inputVal = [] then
    { log := log, requests := [], typingShown := 0, typingRemoved := 0 }
  else
    match resp with
    | ChatResponse.ok reply =>
      { log := log ++ [Entry.user (trimChars inputVal),
                       Entry.bot (addBotMessage reply)],
        requests := [{ message := trimChars inputVal }],
        typingShown := 1, typingRemoved := 1 }
    | ChatResponse.err =>
      { log := log ++ [Entry.user (trimChars inputVal), Entry.typing,
                       Entry.botPlain "Unable to reach the server.".data],
        requests := [{ message := trimChars inputVal }],
        typingShown := 1, typingRemoved := 0 }

/-! ## Structural lemmas about the regex model -/

/-- A literal that matches at the head is no longer than the text. -/
theorem headMatches_le_length (eq : Char → Char → Bool) :
    ∀ p l : List Char, headMatches eq p l = true → p.length ≤ l.length := by
  intro p
  induction p with
  | nil => intro l _; simp
  | cons a ps ih =>
    intro l h
    cases l with
    | nil => simp [headMatches] at h
    | cons c cs =>
      simp only [headMatches, Bool.and_eq_true] at h
      simp only [List.length_cons]
      exact Nat.succ_le_succ (ih cs h.2)

/-- Under case-sensitive comparison, a matching literal head is a prefix. -/
theorem headMatches_eq_append :
    ∀ p l : List Char, headMatches csEq p l = true → l = p ++ l.drop p.length := by
  intro p
  induction p with
  | nil => intro l _; simp
  | cons a ps ih =>
    intro l h
    cases l with
    | nil => simp [headMatches] at h
    | cons c cs =>
      simp only [headMatches, csEq, Bool.and_eq_true, beq_iff_eq] at h
      obtain ⟨h1, h2⟩ := h
      subst h1
      simp only [List.length_cons, List.cons_append, List.drop_succ_cons]
      exact congrArg (List.cons a) (ih cs h2)

/-- What a successful greedy search guarantees: a non-empty all-non-whitespace
segment of length `k ≤ n` followed by the literal `.png`. -/
theorem greedyMidFrom_sound (eq : Char → Char → Bool) (l : List Char) :
    ∀ n k : Nat, greedyMidFrom eq l n = some k →
      1 ≤ k ∧ k ≤ n ∧ (l.take k).all (fun c => !isWs c) = true ∧
      headMatches eq pathTail (l.drop k) = true := by
  intro n
  induction n with
  | zero => intro k h; simp [greedyMidFrom] at h
  | succ m ih =>
    intro k h
    unfold greedyMidFrom at h
    split at h
    next hc =>
      simp only [Bool.and_eq_true] at hc
      obtain ⟨h1, h2⟩ := hc
      injection h with h'
      subst h'
      exact ⟨Nat.succ_le_succ (Nat.zero_le m), Nat.le_refl _, h1, h2⟩
    next =>
      obtain ⟨a, b, c, d⟩ := ih k h
      exact ⟨a, Nat.le_succ_of_le b, c, d⟩

/-- A head-anchored match is non-empty and fits within the text. -/
theorem matchLen_le (eq : Char → Char → Bool) (l : List Char) (n : Nat)
    (h : matchLen eq l = some n) : 1 ≤ n ∧ n ≤ l.length := by
  unfold matchLen at h
  split at h
  next hHead =>
    cases hg : greedyMid eq (l.drop pathHead.length) with
    | none => rw [hg] at h; simp at h
    | some k =>
      rw [hg] at h
      simp only [Option.map_some'] at h
      injection h with h'
      obtain ⟨hk1, hk2, _, hTail⟩ :=
        greedyMidFrom_sound eq (l.drop pathHead.length) _ k hg
      have h1 := headMatches_le_length eq pathHead l hHead
      have h2 := headMatches_le_length eq pathTail _ hTail
      have e1 : pathHead.length = 15 := rfl
      have e2 : pathTail.length = 4 := rfl
      simp only [List.length_drop] at hk2 h2
      omega
  next => exact absurd h (by simp)

/-- Shape of a head-anchored case-sensitive match: the first `n` characters
are exactly `/static/graphs/`, a non-empty non-whitespace middle, and
`.png`. -/
theorem matchLen_shape (l : List Char) (n : Nat)
    (h : matchLen csEq l = some n) :
    ∃ mid : List Char, mid ≠ [] ∧ mid.all (fun c => !isWs c) = true ∧
      l.take n = pathHead ++ (mid ++ pathTail) ∧
      pathHead.length + mid.length + pathTail.length = n := by
  unfold matchLen at h
  split at h
  next hHead =>
    cases hg : greedyMid csEq (l.drop pathHead.length) with
    | none => rw [hg] at h; simp at h
    | some k =>
      rw [hg] at h
      simp only [Option.map_some'] at h
      injection h with h'
      obtain ⟨hk1, hk2, hAll, hTail⟩ :=
        greedyMidFrom_sound csEq (l.drop pathHead.length) _ k hg
      have hu : l = pathHead ++ l.drop pathHead.length :=
        headMatches_eq_append pathHead l hHead
      have hv : (l.drop pathHead.length).drop k
          = pathTail ++ ((l.drop pathHead.length).drop k).drop pathTail.length :=
        headMatches_eq_append pathTail _ hTail
      have hmidlen : ((l.drop pathHead.length).take k).length = k := by
        rw [List.length_take]
        omega
      have hmidne : (l.drop pathHead.length).take k ≠ [] := by
        intro hnil
        rw [hnil] at hmidlen
        simp at hmidlen
        omega
      refine ⟨(l.drop pathHead.length).take k, hmidne, hAll, ?_, ?_⟩
      · have step3 : ((l.drop pathHead.length).drop k).take pathTail.length
            = pathTail := by
          conv_lhs => rw [hv]
          exact List.take_left pathTail _
        calc l.take n
            = l.take (pathHead.length + (k + pathTail.length)) := by
              rw [← h', Nat.add_assoc]
          _ = (pathHead ++ l.drop pathHead.length).take
                (pathHead.length + (k + pathTail.length)) := by
              conv_lhs => rw [hu]
          _ = pathHead ++ (l.drop pathHead.length).take (k + pathTail.length) := by
              rw [List.take_add, List.take_left, List.drop_left]
          _ = pathHead ++ ((l.drop pathHead.length).take k
                ++ ((l.drop pathHead.length).drop k).take pathTail.length) := by
              rw [List.take_add]
          _ = pathHead ++ ((l.drop pathHead.length).take k ++ pathTail) := by
              rw [step3]
      · rw [hmidlen]
        exact h'
  next => exact absurd h (by simp)

/-- The leftmost match decomposes the text, and the match is non-empty. -/
theorem firstMatch_decomp (eq : Char → Char → Bool) :
    ∀ l b m r : List Char, firstMatch eq l = some (b, m, r) →
      l = b ++ (m ++ r) ∧ 1 ≤ m.length := by
  intro l
  induction l with
  | nil => intro b m r h; simp [firstMatch] at h
  | cons c cs ih =>
    intro b m r h
    unfold firstMatch at h
    split at h
    next n hm =>
      simp only [Option.some.injEq, Prod.mk.injEq] at h
      obtain ⟨hb, hmm, hr⟩ := h
      subst hb; subst hmm; subst hr
      refine ⟨by simp [List.take_append_drop], ?_⟩
      obtain ⟨h1, h2⟩ := matchLen_le eq (c :: cs) n hm
      rw [List.length_take]
      omega
    next hm =>
      split at h
      next b' m' r' hf =>
        simp only [Option.some.injEq, Prod.mk.injEq] at h
        obtain ⟨hb, hmm, hr⟩ := h
        subst hb; subst hmm; subst hr
        obtain ⟨ih1, ih2⟩ := ih b' m' r' hf
        refine ⟨?_, ih2⟩
        rw [List.cons_append, ← ih1]
      next => simp at h

/-- Shape of the span found by the case-sensitive leftmost match: it is
`/static/graphs/` + non-empty non-whitespace middle + `.png`. -/
theorem firstMatch_shape :
    ∀ l b m r : List Char, firstMatch csEq l = some (b, m, r) →
      ∃ mid : List Char, mid ≠ [] ∧ mid.all (fun c => !isWs c) = true ∧
        m = pathHead ++ (mid ++ pathTail) := by
  intro l
  induction l with
  | nil => intro b m r h; simp [firstMatch] at h
  | cons c cs ih =>
    intro b m r h
    unfold firstMatch at h
    split at h
    next n hm =>
      simp only [Option.some.injEq, Prod.mk.injEq] at h
      obtain ⟨hb, hmm, hr⟩ := h
      obtain ⟨mid, h1, h2, h3, h4⟩ := matchLen_shape (c :: cs) n hm
      exact ⟨mid, h1, h2, by rw [← hmm, h3]⟩
    next hm =>
      split at h
      next b' m' r' hf =>
        simp only [Option.some.injEq, Prod.mk.injEq] at h
        obtain ⟨hb, hmm, hr⟩ := h
        subst hmm
        exact ih b' m' r' hf
      next => simp at h

/-- The empty list strips to itself at any fuel. -/
theorem stripAllFuel_nil (n : Nat) : stripAllFuel n [] = [] := by
  cases n with
  | zero => rfl
  | succ m => rfl

/-- One unfolding step of the fuelled stripper. -/
theorem stripAllFuel_succ (n : Nat) (l : List Char) :
    stripAllFuel (n + 1) l =
      match firstMatch ciEq l with
      | some (b, _, r) => b ++ stripAllFuel n r
      | none => l := rfl

/-- The fuel does not matter once it covers the length of the list. -/
theorem stripAllFuel_congr :
    ∀ n₁ n₂ : Nat, ∀ l : List Char, l.length ≤ n₁ → l.length ≤ n₂ →
      stripAllFuel n₁ l = stripAllFuel n₂ l := by
  intro n₁
  induction n₁ with
  | zero =>
    intro n₂ l h1 _
    have hl : l = [] := List.length_eq_zero.mp (Nat.le_zero.mp h1)
    subst hl
    rw [stripAllFuel_nil, stripAllFuel_nil]
  | succ a ih =>
    intro n₂ l h1 h2
    cases l with
    | nil => rw [stripAllFuel_nil, stripAllFuel_nil]
    | cons c cs =>
      cases n₂ with
      | zero => simp at h2
      | succ b2 =>
        rw [stripAllFuel_succ, stripAllFuel_succ]
        cases hf : firstMatch ciEq (c :: cs) with
        | none => simp only [hf]
        | some x =>
          obtain ⟨b, m, r⟩ := x
          simp only [hf]
          obtain ⟨hd, hm1⟩ := firstMatch_decomp ciEq (c :: cs) b m r hf
          have hlen := congrArg List.length hd
          simp only [List.length_cons, List.length_append] at hlen
          simp only [List.length_cons] at h1 h2
          rw [ih b2 r (by omega) (by omega)]

/-- The global replace removes the leftmost match and continues after it:
every match of the iterated scan is stripped. -/
theorem stripAllGraphs_match (t b m r : List Char)
    (h : firstMatch ciEq t = some (b, m, r)) :
    stripAllGraphs t = b ++ stripAllGraphs r := by
  cases t with
  | nil => simp [firstMatch] at h
  | cons c cs =>
    obtain ⟨hd, hm1⟩ := firstMatch_decomp ciEq (c :: cs) b m r h
    have hlen := congrArg List.length hd
    simp only [List.length_cons, List.length_append] at hlen
    show stripAllFuel (cs.length + 1) (c :: cs) = _
    rw [stripAllFuel_succ]
    simp only [h]
    unfold stripAllGraphs
    rw [stripAllFuel_congr cs.length r.length r (by omega) (Nat.le_refl _)]

/-- `addBotMessage` on a text with a graph path. -/
theorem addBotMessage_found (text b m r : List Char)
    (h : firstMatch csEq text = some (b, m, r)) :
    addBotMessage text =
      { displayed := trimChars (b ++ r), imgSrc := some m,
        currentLang := "en".data, btnLabel := "Translate".data,
        btnDisabled := false } := by
  unfold addBotMessage
  simp only [h]

/-- `addBotMessage` on a text without a graph path. -/
theorem addBotMessage_plain (text : List Char)
    (h : firstMatch csEq text = none) :
    addBotMessage text =
      { displayed := text, imgSrc := none, currentLang := "en".data,
        btnLabel := "Translate".data, btnDisabled := false } := by
  unfold addBotMessage
  simp only [h]

/-! ## The claims -/

/-- Claim C1.  The claim says that for every chat submission the typing
indicator created at submit time is absent after the chat request
resolves, on both the success and the failure path, with show and remove
counts equal per submission.  The code violates this on the failure path:
`typingElem.remove()` lives inside the `try` block after the response is
consumed, so when the fetch throws, the `catch` block appends the failure
message while the typing indicator stays in the log — one show against
zero removes.  This theorem evaluates the submit handler at the failing
input: input `"hi"`, network failure. -/
theorem C1_typing_indicator_leak :
    (submitHandler "hi".data [] ChatResponse.err).typingShown = 1 ∧
    (submitHandler "hi".data [] ChatResponse.err).typingRemoved = 0 ∧
    Entry.typing ∈ (submitHandler "hi".data [] ChatResponse.err).log := by
  decide

/-- Claim C2, counterexample.  The claim says that clicking the translate
control in the Translated state and receiving a successful response
restores the displayed text to the original (pre-translation) text.  The
handler keeps no copy of the original: it displays whatever the server
returns for the reverse direction.  Concretely: original text `"Hello"`,
first translation `"مرحبا"`, reverse translation `"Hello world"` — the
state and label flip back to Original/`"Translate"`, but the displayed
text is `"Hello world"`, not the original `"Hello"`. -/
theorem C2_roundtrip_counterexample :
    (click (click (addBotMessage "Hello".data)
          (TranslateResponse.ok "مرحبا".data)).state
        (TranslateResponse.ok "Hello world".data)).state.currentLang
      = "en".data ∧
    (click (click (addBotMessage "Hello".data)
          (TranslateResponse.ok "مرحبا".data)).state
        (TranslateResponse.ok "Hello world".data)).state.btnLabel
      = "Translate".data ∧
    ¬ ((click (click (addBotMessage "Hello".data)
          (TranslateResponse.ok "مرحبا".data)).state
        (TranslateResponse.ok "Hello world".data)).state.displayed
      = (addBotMessage "Hello".data).displayed) := by
  decide

/-- Claim C2, amended.  Clicking the control while it is in the Translated
state (`currentLang = "ar"`) with a successful response sets the displayed
text to the server's returned reverse translation, graph paths stripped
and trimmed — the original text is restored exactly when the server
returns it, since the handler keeps no copy — requests direction
`"English"`, flips the control back to Original (`currentLang = "en"`),
sets the label to `"Translate"`, and re-enables the control. -/
theorem C2_untranslate (s : BotMessage) (t : List Char)
    (h : s.currentLang = "ar".data) :
    (click s (TranslateResponse.ok t)).state.displayed
        = trimChars (stripAllGraphs t) ∧
    (click s (TranslateResponse.ok t)).state.currentLang = "en".data ∧
    (click s (TranslateResponse.ok t)).state.btnLabel = "Translate".data ∧
    (click s (TranslateResponse.ok t)).state.btnDisabled = false ∧
    (click s (TranslateResponse.ok t)).request.target_lang
        = "English".data := by
  have hne : ¬ (("ar".data : List Char) = "en".data) := by decide
  simp [click, clickPending, clickResolve, clickRequest, h, hne]

/-- Witness for the amended C2 at a concrete Translated-state message. -/
theorem C2_untranslate_witness :
    (click { displayed := "مرحبا".data, imgSrc := none,
             currentLang := "ar".data, btnLabel := "Original".data,
             btnDisabled := false }
        (TranslateResponse.ok "Hello".data)).state.displayed
        = trimChars (stripAllGraphs "Hello".data) ∧
    (click { displayed := "مرحبا".data, imgSrc := none,
             currentLang := "ar".data, btnLabel := "Original".data,
             btnDisabled := false }
        (TranslateResponse.ok "Hello".data)).state.currentLang = "en".data ∧
    (click { displayed := "مرحبا".data, imgSrc := none,
             currentLang := "ar".data, btnLabel := "Original".data,
             btnDisabled := false }
        (TranslateResponse.ok "Hello".data)).state.btnLabel
        = "Translate".data ∧
    (click { displayed := "مرحبا".data, imgSrc := none,
             currentLang := "ar".data, btnLabel := "Original".data,
             btnDisabled := false }
        (TranslateResponse.ok "Hello".data)).state.btnDisabled = false ∧
    (click { displayed := "مرحبا".data, imgSrc := none,
             currentLang := "ar".data, btnLabel := "Original".data,
             btnDisabled := false }
        (TranslateResponse.ok "Hello".data)).request.target_lang
        = "English".data :=
  C2_untranslate
    { displayed := "مرحبا".data, imgSrc := none, currentLang := "ar".data,
      btnLabel := "Original".data, btnDisabled := false }
    "Hello".data rfl

/-- Claim C3.  The claim says that a failed translate click surfaces an
alert, leaves the displayed text unchanged, re-enables the control, and
restores the control's label to its pre-click value.  The code does the
first three but never restores the label: the `catch` block only alerts,
and the `finally` block only re-enables, so the enabled button keeps the
label `"Translating…"` set at click time.  This theorem evaluates the
handler at the failing input: a fresh bot message (pre-click label
`"Translate"`) whose translate request fails. -/
theorem C3_failure_label_stuck :
    (click (addBotMessage "Hello".data) TranslateResponse.err).alerts
        = ["Translation failed!".data] ∧
    (click (addBotMessage "Hello".data) TranslateResponse.err).state.displayed
        = (addBotMessage "Hello".data).displayed ∧
    (click (addBotMessage "Hello".data) TranslateResponse.err).state.btnDisabled
        = false ∧
    (addBotMessage "Hello".data).btnLabel = "Translate".data ∧
    (click (addBotMessage "Hello".data) TranslateResponse.err).state.btnLabel
        = "Translating…".data := by
  decide

/-- Claim C4.  A translate click on an untranslated bot message
(`currentLang = "en"`) whose endpoint responds successfully with
translation `x` leaves the displayed text exactly `x` with every embedded
graph-image path removed and surrounding whitespace trimmed, and the
control in the Translated state (`currentLang = "ar"`, label
`"Original"`, re-enabled). -/
theorem C4_translate_success (s : BotMessage) (x : List Char)
    (h : s.currentLang = "en".data) :
    (click s (TranslateResponse.ok x)).state.displayed
        = trimChars (stripAllGraphs x) ∧
    (click s (TranslateResponse.ok x)).state.currentLang = "ar".data ∧
    (click s (TranslateResponse.ok x)).state.btnLabel = "Original".data ∧
    (click s (TranslateResponse.ok x)).state.btnDisabled = false := by
  have hne : ¬ (("ar".data : List Char) = "en".data) := by decide
  simp [click, clickPending, clickResolve, h, hne]

/-- Witness for C4 at a concrete fresh bot message and a translation
containing a graph path; the stripped and trimmed result is evaluated. -/
theorem C4_translate_success_witness :
    ((click (addBotMessage "Hi".data)
          (TranslateResponse.ok "Hello /static/graphs/q1.png".data)).state.displayed
        = trimChars (stripAllGraphs "Hello /static/graphs/q1.png".data) ∧
      (click (addBotMessage "Hi".data)
          (TranslateResponse.ok "Hello /static/graphs/q1.png".data)).state.currentLang
        = "ar".data ∧
      (click (addBotMessage "Hi".data)
          (TranslateResponse.ok "Hello /static/graphs/q1.png".data)).state.btnLabel
        = "Original".data ∧
      (click (addBotMessage "Hi".data)
          (TranslateResponse.ok "Hello /static/graphs/q1.png".data)).state.btnDisabled
        = false) ∧
    trimChars (stripAllGraphs "Hello /static/graphs/q1.png".data)
        = "Hello".data :=
  ⟨C4_translate_success (addBotMessage "Hi".data)
      "Hello /static/graphs/q1.png".data rfl,
    by decide⟩

/-- Claim C5.  A failed translation request mutates no message state —
displayed text, image, and translation flag are unchanged — re-enables
the control, and raises the alert, so the widget remains usable. -/
theorem C5_translate_failure_frame (s : BotMessage) :
    (click s TranslateResponse.err).state.displayed = s.displayed ∧
    (click s TranslateResponse.err).state.imgSrc = s.imgSrc ∧
    (click s TranslateResponse.err).state.currentLang = s.currentLang ∧
    (click s TranslateResponse.err).state.btnDisabled = false ∧
    (click s TranslateResponse.err).alerts = ["Translation failed!".data] :=
  ⟨rfl, rfl, rfl, rfl, rfl⟩

/-- Claim C6.  When the bot-message renderer finds an embedded
`/static/graphs/<name>.png` path, the text splits as `b ++ m ++ r` with
`m` of exactly that shape, the displayed text is the text with the
matched span removed (and trimmed), and the inline image's source is the
matched span; when there is no match the text is displayed verbatim with
no image. -/
theorem C6_bot_renderer (text : List Char) :
    (∀ b m r : List Char, firstMatch csEq text = some (b, m, r) →
        text = b ++ (m ++ r) ∧
        (∃ mid : List Char, mid ≠ [] ∧ mid.all (fun c => !isWs c) = true ∧
          m = pathHead ++ (mid ++ pathTail)) ∧
        (addBotMessage text).displayed = trimChars (b ++ r) ∧
        (addBotMessage text).imgSrc = some m) ∧
    (firstMatch csEq text = none →
        (addBotMessage text).displayed = text ∧
        (addBotMessage text).imgSrc = none) := by
  constructor
  · intro b m r h
    obtain ⟨hd, _⟩ := firstMatch_decomp csEq text b m r h
    obtain ⟨mid, h1, h2, h3⟩ := firstMatch_shape text b m r h
    rw [addBotMessage_found text b m r h]
    exact ⟨hd, ⟨mid, h1, h2, h3⟩, rfl, rfl⟩
  · intro h
    rw [addBotMessage_plain text h]
    exact ⟨rfl, rfl⟩

/-- Witness for C6 at the spec's example reply
`"Hi there /static/graphs/q1.png"`. -/
theorem C6_bot_renderer_witness :
    "Hi there /static/graphs/q1.png".data
        = "Hi there ".data ++ ("/static/graphs/q1.png".data ++ []) ∧
    (∃ mid : List Char, mid ≠ [] ∧ mid.all (fun c => !isWs c) = true ∧
      "/static/graphs/q1.png".data = pathHead ++ (mid ++ pathTail)) ∧
    (addBotMessage "Hi there /static/graphs/q1.png".data).displayed
        = trimChars ("Hi there ".data ++ []) ∧
    (addBotMessage "Hi there /static/graphs/q1.png".data).imgSrc
        = some "/static/graphs/q1.png".data :=
  (C6_bot_renderer "Hi there /static/graphs/q1.png".data).1
    "Hi there ".data "/static/graphs/q1.png".data [] (by decide)

/-- Claim C7.  The translate click disables the control and sets its
label to `"Translating…"` before the request is issued, and the request
carries the currently displayed text together with the alternating
target-language hint: `"Arabic"` in the Original state
(`currentLang = "en"`), `"English"` in the Translated state
(`currentLang = "ar"`). -/
theorem C7_request_shape (s : BotMessage) (resp : TranslateResponse) :
    (clickPending s).btnDisabled = true ∧
    (clickPending s).btnLabel = "Translating…".data ∧
    (click s resp).request.text = s.displayed ∧
    (s.currentLang = "en".data →
        (click s resp).request.target_lang = "Arabic".data) ∧
    (s.currentLang = "ar".data →
        (click s resp).request.target_lang = "English".data) := by
  refine ⟨rfl, rfl, rfl, ?_, ?_⟩
  · intro h
    simp [click, clickRequest, clickPending, h]
  · intro h
    have hne : ¬ (("ar".data : List Char) = "en".data) := by decide
    simp [click, clickRequest, clickPending, h, hne]

/-- Witness for C7 at a fresh (Original-state) bot message. -/
theorem C7_request_shape_witness :
    (click (addBotMessage "Hi".data) TranslateResponse.err).request.text
        = (addBotMessage "Hi".data).displayed ∧
    (click (addBotMessage "Hi".data) TranslateResponse.err).request.target_lang
        = "Arabic".data :=
  ⟨(C7_request_shape (addBotMessage "Hi".data) TranslateResponse.err).2.2.1,
    (C7_request_shape (addBotMessage "Hi".data) TranslateResponse.err).2.2.2.1
      rfl⟩

/-- Claim C8.  A submission whose input trims to empty is a no-op: the log
is unchanged, no chat request is issued, and the typing indicator is
neither shown nor removed. -/
theorem C8_empty_submit (inputVal : List Char) (log : List Entry)
    (resp : ChatResponse) (h : trimChars inputVal = []) :
    (submitHandler inputVal log resp).log = log ∧
    (submitHandler inputVal log resp).requests = [] ∧
    (submitHandler inputVal log resp).typingShown = 0 ∧
    (submitHandler inputVal log resp).typingRemoved = 0 := by
  simp [submitHandler, h]

/-- Witness for C8 at a whitespace-only input. -/
theorem C8_empty_submit_witness :
    (submitHandler "   ".data [] ChatResponse.err).log = [] ∧
    (submitHandler "   ".data [] ChatResponse.err).requests = [] ∧
    (submitHandler "   ".data [] ChatResponse.err).typingShown = 0 ∧
    (submitHandler "   ".data [] ChatResponse.err).typingRemoved = 0 :=
  C8_empty_submit "   ".data [] ChatResponse.err (by decide)

/-- Claim C9.  A failed chat request renders exactly the fixed bot-role
entry `"Unable to reach the server."` at the end of the log, issues
exactly one chat request (no retry), and leaves the widget usable: a
subsequent successful submission renders its user and bot entries
normally.  (The handler keeps no cross-submission state, so it returns to
Idle; the typing indicator left behind on this path is the defect
recorded at C1.) -/
theorem C9_chat_failure (inputVal : List Char) (log : List Entry)
    (h : trimChars inputVal ≠ []) :
    (submitHandler inputVal log ChatResponse.err).log
        = log ++ [Entry.user (trimChars inputVal), Entry.typing,
                  Entry.botPlain "Unable to reach the server.".data] ∧
    (submitHandler inputVal log ChatResponse.err).requests
        = [{ message := trimChars inputVal }] ∧
    (∀ v2 reply : List Char, trimChars v2 ≠ [] →
        (submitHandler v2 (submitHandler inputVal log ChatResponse.err).log
            (ChatResponse.ok reply)).log
          = (submitHandler inputVal log ChatResponse.err).log ++
              [Entry.user (trimChars v2),
               Entry.bot (addBotMessage reply)]) := by
  refine ⟨?_, ?_, ?_⟩
  · simp [submitHandler, h]
  · simp [submitHandler, h]
  · intro v2 reply h2
    generalize (submitHandler inputVal log ChatResponse.err).log = L
    simp [submitHandler, h2]

/-- Witness for C9: failing submission `"hi"` followed by a successful
submission `"yo"`. -/
theorem C9_chat_failure_witness :
    (submitHandler "hi".data [] ChatResponse.err).log
        = [] ++ [Entry.user (trimChars "hi".data), Entry.typing,
                 Entry.botPlain "Unable to reach the server.".data] ∧
    (submitHandler "hi".data [] ChatResponse.err).requests
        = [{ message := trimChars "hi".data }] ∧
    (submitHandler "yo".data (submitHandler "hi".data [] ChatResponse.err).log
        (ChatResponse.ok "ok".data)).log
      = (submitHandler "hi".data [] ChatResponse.err).log ++
          [Entry.user (trimChars "yo".data),
           Entry.bot (addBotMessage "ok".data)] := by
  obtain ⟨h1, h2, h3⟩ := C9_chat_failure "hi".data [] (by decide)
  exact ⟨h1, h2, h3 "yo".data "ok".data (by decide)⟩

/-- Claim C10.  The bot-message renderer removes only the first matching
graph path — the displayed text is the text around the first match, so
later paths remain in it — while the translate success handler's global
regex removes every match: the global strip removes the leftmost match
and continues after it.  Concretely, on a reply with two paths the
renderer keeps the second path in the displayed text, while stripping the
same text globally (then trimming, as the translate handler does) removes
both. -/
theorem C10_first_vs_global :
    (∀ text b m r : List Char, firstMatch csEq text = some (b, m, r) →
        (addBotMessage text).displayed = trimChars (b ++ r) ∧
        (addBotMessage text).imgSrc = some m) ∧
    (∀ t b m r : List Char, firstMatch ciEq t = some (b, m, r) →
        stripAllGraphs t = b ++ stripAllGraphs r) ∧
    (addBotMessage "A /static/graphs/a.png B /static/graphs/b.png".data).displayed
        = "A  B /static/graphs/b.png".data ∧
    trimChars (stripAllGraphs "A /static/graphs/a.png B /static/graphs/b.png".data)
        = "A  B".data := by
  refine ⟨?_, ?_, ?_, ?_⟩
  · intro text b m r h
    rw [addBotMessage_found text b m r h]
    exact ⟨rfl, rfl⟩
  · intro t b m r h
    exact stripAllGraphs_match t b m r h
  · decide
  · decide

/-- Witness for C10 at the two-path reply, for both the renderer's
single removal and the first step of the global strip. -/
theorem C10_first_vs_global_witness :
    ((addBotMessage "A /static/graphs/a.png B /static/graphs/b.png".data).displayed
        = trimChars ("A ".data ++ " B /static/graphs/b.png".data) ∧
      (addBotMessage "A /static/graphs/a.png B /static/graphs/b.png".data).imgSrc
        = some "/static/graphs/a.png".data) ∧
    stripAllGraphs "A /static/graphs/a.png B /static/graphs/b.png".data
        = "A ".data ++ stripAllGraphs " B /static/graphs/b.png".data :=
  ⟨C10_first_vs_global.1
      "A /static/graphs/a.png B /static/graphs/b.png".data
      "A ".data "/static/graphs/a.png".data
      " B /static/graphs/b.png".data (by decide),
    C10_first_vs_global.2.1
      "A /static/graphs/a.png B /static/graphs/b.png".data
      "A ".data "/static/graphs/a.png".data
      " B /static/graphs/b.png".data (by decide)⟩

end ChatWidget
